import Mathlib

/-!
Verification of the body-fat estimator core (`src/App.tsx`).

The repository contains two near-identical wizard variants (a Turkish-localized
one and an English one); their numeric helpers, validation and the `results`
useMemo computation are verbatim identical, so a single shallow embedding below
covers both.  JavaScript numbers are modelled by exact real arithmetic (`ℝ`);
nullable values by `Option`; the string-validation layer is modelled over
exact rationals extended with the two signed infinities, with a model of the
JavaScript `parseFloat` builtin covering its whole string grammar (leading
`StrWhiteSpace`, optional sign, the `Infinity` literal, decimal digits with
optional fractional part and optional exponent, longest valid prefix).
-/

/-- Sex enumeration, from `type Sex = 'male' | 'female'`. -/
inductive Sex
  | male
  | female
deriving DecidableEq, BEq, Repr

/-- The measurement record, from `type FormData` in `src/App.tsx`. -/
structure FormData where
  sex : Option Sex
  age : Option ℝ
  weightKg : Option ℝ
  heightCm : Option ℝ
  neckCm : Option ℝ
  waistCm : Option ℝ
  hipCm : Option ℝ

/-- The result object produced by the `results` useMemo: the keys
`BMI_VAL, BMI_BF, NAVY, RFM, CUN_BAE, ECORE` of `calculatedResults`
together with `AVERAGE_BF`. -/
structure ResultBundle where
  BMI_VAL : Option ℝ
  BMI_BF : Option ℝ
  NAVY : Option ℝ
  RFM : Option ℝ
  CUN_BAE : Option ℝ
  ECORE : Option ℝ
  AVERAGE_BF : Option ℝ

/-- `calculateBMI` from `src/App.tsx`: null inputs or non-positive height
give null, otherwise `weightKg / heightM²` with `heightM = heightCm / 100`. -/
noncomputable def calculateBMI : Option ℝ → Option ℝ → Option ℝ
  | some weightKg, some heightCm =>
      if heightCm ≤ 0 then none
      else some (weightKg / ((heightCm / 100) * (heightCm / 100)))
  | _, _ => none

/-- `kgToLbs` from `src/App.tsx`. -/
noncomputable def kgToLbs (kg : ℝ) : ℝ := kg * 2.20462

/-- `lbsToKg` from `src/App.tsx`. -/
noncomputable def lbsToKg (lbs : ℝ) : ℝ := lbs / 2.20462

/-- `cmToIn` from `src/App.tsx`. -/
noncomputable def cmToIn (cm : ℝ) : ℝ := cm / 2.54

/-- `inToCm` from `src/App.tsx`. -/
noncomputable def inToCm (inches : ℝ) : ℝ := inches * 2.54

/-- Category enumeration, from `type BfCategory`. -/
inductive BfCategory
  | contestPrep
  | athletic
  | average
  | overweight
  | obese
  | unknown
deriving DecidableEq, Repr

/-- `getBfCategory` from `src/App.tsx`: sex-specific banding of a body-fat
percentage, `Unknown` when the percentage or the sex is null. -/
noncomputable def getBfCategory : Option ℝ → Option Sex → BfCategory
  | some bfPercentage, some Sex.male =>
      if bfPercentage < 8 then BfCategory.contestPrep
      else if bfPercentage ≤ 15 then BfCategory.athletic
      else if bfPercentage ≤ 21 then BfCategory.average
      else if bfPercentage ≤ 26 then BfCategory.overweight
      else BfCategory.obese
  | some bfPercentage, some Sex.female =>
      if bfPercentage < 14 then BfCategory.contestPrep
      else if bfPercentage ≤ 24 then BfCategory.athletic
      else if bfPercentage ≤ 33 then BfCategory.average
      else if bfPercentage ≤ 39 then BfCategory.overweight
      else BfCategory.obese
  | _, _ => BfCategory.unknown

/-- Severity index of a category, used to express that the banding is
monotone: larger body fat never yields a strictly less severe category. -/
def severityRank : BfCategory → ℕ
  | BfCategory.contestPrep => 0
  | BfCategory.athletic => 1
  | BfCategory.average => 2
  | BfCategory.overweight => 3
  | BfCategory.obese => 4
  | BfCategory.unknown => 5

/-- The Deurenberg BMI-based estimate block of the `results` computation:
`1.20 * bmi + 0.23 * age - 10.8 * sexFactorDeurenberg - 5.4`, clamped at 0,
null when BMI or age is null. -/
noncomputable def deurenberg (bmi age : Option ℝ) (sexFactorDeurenberg : ℝ) : Option ℝ :=
  match bmi, age with
  | some b, some a => some (max 0 (1.20 * b + 0.23 * a - 10.8 * sexFactorDeurenberg - 5.4))
  | _, _ => none

/-- The US Navy estimate block of the `results` computation.  For males it
requires `waist - neck > 0` and `height > 0`; for females it additionally
requires hip to be non-null and uses `waist + hip - neck`.  The result is
clamped at 0; when the positivity guard fails the result is null. -/
noncomputable def navy (isMale : Bool) (heightCm neckCm waistCm hipCm : Option ℝ) : Option ℝ :=
  match neckCm, waistCm, heightCm with
  | some n, some w, some h =>
      if isMale then
        let wmn := w - n
        if wmn > 0 ∧ h > 0 then
          some (max 0 (495 / (1.0324 - 0.19077 * Real.logb 10 wmn
            + 0.15456 * Real.logb 10 h) - 450))
        else none
      else
        match hipCm with
        | some hip =>
            let wphmn := w + hip - n
            if wphmn > 0 ∧ h > 0 then
              some (max 0 (495 / (1.29579 - 0.35004 * Real.logb 10 wphmn
                + 0.22100 * Real.logb 10 h) - 450))
            else none
        | none => none
  | _, _, _ => none

/-- The relative-fat-mass block of the `results` computation: requires height
and waist non-null and positive, uses `hwr = height / waist`, male result
`64 - 20 * hwr`, female `76 - 20 * hwr`, clamped at 0. -/
noncomputable def rfm (isMale : Bool) (heightCm waistCm : Option ℝ) : Option ℝ :=
  match heightCm, waistCm with
  | some h, some w =>
      if h > 0 ∧ w > 0 then
        let hwr := h / w
        some (max 0 (if isMale then 64 - 20 * hwr else 76 - 20 * hwr))
      else none
  | _, _ => none

/-- The CUN-BAE polynomial block of the `results` computation, clamped at 0,
null when BMI or age is null. -/
noncomputable def cunBae (bmi age : Option ℝ) (sexFactorCunEcore : ℝ) : Option ℝ :=
  match bmi, age with
  | some b, some a =>
      let bmiSq := b * b
      some (max 0 (-44.988 + (0.503 * a) + (10.689 * sexFactorCunEcore) + (3.172 * b)
        - (0.026 * bmiSq) + (0.181 * b * sexFactorCunEcore) - (0.02 * b * a)
        - (0.005 * bmiSq * sexFactorCunEcore) + (0.00021 * bmiSq * a)))
  | _, _ => none

/-- The ECORE-BF block of the `results` computation: requires BMI non-null and
positive and age non-null, uses the natural logarithm of BMI, clamped at 0. -/
noncomputable def ecore (bmi age : Option ℝ) (sexFactorCunEcore : ℝ) : Option ℝ :=
  match bmi, age with
  | some b, some a =>
      if b > 0 then
        some (max 0 (-97.102 + (0.123 * a) + (11.900 * sexFactorCunEcore)
          + (35.959 * Real.log b)))
      else none
  | _, _ => none

/-- The body of the `results` useMemo after the completeness guard:
computes the six estimates and the average of the non-null body-fat values
(`BMI_VAL` excluded), in the object key order of the source. -/
noncomputable def computeResults (sex : Sex)
    (age weightKg heightCm neckCm waistCm hipCm : Option ℝ) : ResultBundle :=
  let isMale : Bool := sex == Sex.male
  let sexFactorDeurenberg : ℝ := if isMale then 1 else 0
  let sexFactorCunEcore : ℝ := if isMale then 0 else 1
  let bmi := calculateBMI weightKg heightCm
  let bmiBf := deurenberg bmi age sexFactorDeurenberg
  let navyBf := navy isMale heightCm neckCm waistCm hipCm
  let rfmBf := rfm isMale heightCm waistCm
  let cunBf := cunBae bmi age sexFactorCunEcore
  let ecoreBf := ecore bmi age sexFactorCunEcore
  let validBfResults := [bmiBf, navyBf, rfmBf, cunBf, ecoreBf].filterMap id
  let averageBf : Option ℝ :=
    if validBfResults.length > 0
    then some (validBfResults.sum / (validBfResults.length : ℝ))
    else none
  ⟨bmi, bmiBf, navyBf, rfmBf, cunBf, ecoreBf, averageBf⟩

/-- The `results` useMemo of `src/App.tsx`: null when the record is incomplete
for its sex (any of sex, age, weight, height, neck, waist null, or female with
null hip), otherwise the computed bundle. -/
noncomputable def results (fd : FormData) : Option ResultBundle :=
  match fd.sex with
  | none => none
  | some sex =>
      if fd.age = none ∨ fd.weightKg = none ∨ fd.heightCm = none ∨ fd.neckCm = none ∨
         fd.waistCm = none ∨ (sex = Sex.female ∧ fd.hipCm = none)
      then none
      else some (computeResults sex fd.age fd.weightKg fd.heightCm fd.neckCm fd.waistCm fd.hipCm)

/-- Validation outcome of `validateRange`.  The source returns a message
string: the empty string for "no error", an invalid-number message, or a
range message built from the formatted bounds; here the three cases are an
inductive with the `outOfRange` case carrying the bounds. -/
inductive ValidationOutcome
  | ok
  | invalidNumber
  | outOfRange (min max : ℚ)
deriving DecidableEq, Repr

/-- Numeric value of a list of decimal digit characters. -/
def digitsVal (ds : List Char) : ℕ :=
  ds.foldl (fun acc c => 10 * acc + (c.toNat - ('0').toNat)) 0

/-- Value of a successful `parseFloat`: an exact rational for a decimal
literal (JavaScript later rounds it to a float64; the engine is modelled in
exact arithmetic throughout) or one of the two signed infinities produced by
the `Infinity` literal. -/
inductive JSNumber
  | finite (q : ℚ)
  | posInf
  | negInf
deriving DecidableEq, Repr

/-- The ECMAScript `StrWhiteSpaceChar` set skipped by `parseFloat`:
`WhiteSpace` (TAB, VT, FF, SP, NBSP, ZWNBSP and the Unicode
space-separator category) and `LineTerminator` (LF, CR, LS, PS). -/
def isStrWhiteSpace (c : Char) : Bool :=
  c = ' ' ∨ c = '\t' ∨ c = '\n' ∨ c = '\r' ∨ c = '\u000B' ∨ c = '\u000C' ∨
  c = '\u00A0' ∨ c = '\uFEFF' ∨ c = '\u1680' ∨ c = '\u2000' ∨ c = '\u2001' ∨
  c = '\u2002' ∨ c = '\u2003' ∨ c = '\u2004' ∨ c = '\u2005' ∨ c = '\u2006' ∨
  c = '\u2007' ∨ c = '\u2008' ∨ c = '\u2009' ∨ c = '\u200A' ∨ c = '\u2028' ∨
  c = '\u2029' ∨ c = '\u202F' ∨ c = '\u205F' ∨ c = '\u3000'

/-- Model of the JavaScript `parseFloat` builtin on a character list,
following the `StrDecimalLiteral` grammar: skip leading `StrWhiteSpace`,
optional sign, then either the literal `Infinity` or decimal digits with an
optional fractional part and an optional exponent; `none` (NaN) when neither
occurs.  Extra trailing characters are ignored, as `parseFloat` parses the
longest valid numeric prefix. -/
def parseFloatChars (cs0 : List Char) : Option JSNumber :=
  let cs1 := cs0.dropWhile isStrWhiteSpace
  let signAndRest : Bool × List Char :=
    match cs1 with
    | '-' :: rest => (true, rest)
    | '+' :: rest => (false, rest)
    | _ => (false, cs1)
  let isNeg := signAndRest.1
  let cs2 := signAndRest.2
  if cs2.take 8 = ['I', 'n', 'f', 'i', 'n', 'i', 't', 'y'] then
    some (if isNeg then JSNumber.negInf else JSNumber.posInf)
  else
    let intDigits := cs2.takeWhile Char.isDigit
    let cs3 := cs2.dropWhile Char.isDigit
    let fracAndRest : List Char × List Char :=
      match cs3 with
      | '.' :: rest => (rest.takeWhile Char.isDigit, rest.dropWhile Char.isDigit)
      | _ => ([], cs3)
    let fracDigits := fracAndRest.1
    let cs4 := fracAndRest.2
    if intDigits = [] ∧ fracDigits = [] then none
    else
      let mantissa : ℚ :=
        (digitsVal intDigits : ℚ) + (digitsVal fracDigits : ℚ) / (10 : ℚ) ^ fracDigits.length
      let expVal : ℤ :=
        match cs4 with
        | e :: rest =>
            if e = 'e' ∨ e = 'E' then
              let esignAndRest : ℤ × List Char :=
                match rest with
                | '-' :: r => (-1, r)
                | '+' :: r => (1, r)
                | _ => (1, rest)
              let eDigits := esignAndRest.2.takeWhile Char.isDigit
              if eDigits = [] then 0 else esignAndRest.1 * (digitsVal eDigits : ℤ)
            else 0
        | [] => 0
      some (JSNumber.finite
        ((if isNeg then (-1 : ℚ) else 1) * mantissa * (10 : ℚ) ^ expVal))

/-- `parseFloat` on a string. -/
def parseFloatJS (s : String) : Option JSNumber := parseFloatChars s.data

/-- The comparison `v < m` of a parsed JavaScript number against a finite
bound, as IEEE comparison: an infinity compares by its sign and never as NaN. -/
def jsLt : JSNumber → ℚ → Bool
  | JSNumber.finite q, m => decide (q < m)
  | JSNumber.posInf, _ => false
  | JSNumber.negInf, _ => true

/-- The comparison `v > m` of a parsed JavaScript number against a finite
bound. -/
def jsGt : JSNumber → ℚ → Bool
  | JSNumber.finite q, m => decide (q > m)
  | JSNumber.posInf, _ => true
  | JSNumber.negInf, _ => false

/-- The `vStr.replace(/,/g, ".")` step of `validateRange` and `parseState`:
every comma becomes a period. -/
def normalizeCommas (s : String) : String :=
  ⟨s.data.map (fun c => if c = ',' then '.' else c)⟩

/-- `validateRange` from `src/App.tsx`: the empty string and a lone minus
sign are not errors; otherwise commas are normalized to periods, a failed
parse (NaN) is an invalid-number error, and a parsed value `v` with
`v < min || v > max` is a range error carrying the bounds. -/
def validateRange (min max : ℚ) (vStr : String) : ValidationOutcome :=
  if vStr = "" ∨ vStr = "-" then ValidationOutcome.ok
  else
    match parseFloatJS (normalizeCommas vStr) with
    | none => ValidationOutcome.invalidNumber
    | some v =>
        if jsLt v min || jsGt v max then ValidationOutcome.outOfRange min max
        else ValidationOutcome.ok

/-- Inversion: a non-null result bundle comes from the post-guard computation. -/
lemma results_eq_some_elim {fd : FormData} {rb : ResultBundle} (h : results fd = some rb) :
    ∃ s, fd.sex = some s ∧
      rb = computeResults s fd.age fd.weightKg fd.heightCm fd.neckCm fd.waistCm fd.hipCm := by
  cases hs : fd.sex with
  | none =>
      rw [results, hs] at h
      exact Option.noConfusion h
  | some s =>
      refine ⟨s, rfl, ?_⟩
      simp only [results, hs] at h
      by_cases hg : fd.age = none ∨ fd.weightKg = none ∨ fd.heightCm = none ∨
          fd.neckCm = none ∨ fd.waistCm = none ∨ (s = Sex.female ∧ fd.hipCm = none)
      · rw [if_pos hg] at h
        cases h
      · rw [if_neg hg] at h
        exact (Option.some_injective _ h).symm

/-- C1: the engine refuses incomplete records — whenever sex is null, or any
of age, weight, height, neck, waist is null, or the sex is female and hip is
null, the `results` computation returns no bundle at all. -/
theorem results_incomplete_none (fd : FormData)
    (h : fd.sex = none ∨ fd.age = none ∨ fd.weightKg = none ∨ fd.heightCm = none ∨
      fd.neckCm = none ∨ fd.waistCm = none ∨ (fd.sex = some Sex.female ∧ fd.hipCm = none)) :
    results fd = none := by
  cases hs : fd.sex with
  | none => simp only [results, hs]
  | some s =>
      simp only [results, hs]
      rw [hs] at h
      rw [if_pos (by simpa using h)]

/-- Witness for C1 at a fully null record. -/
theorem results_incomplete_none_witness :
    results ⟨none, none, none, none, none, none, none⟩ = none :=
  results_incomplete_none ⟨none, none, none, none, none, none, none⟩ (Or.inl rfl)

/-- C2 counterexample: a female record that is complete except for hip yields
no bundle at all — in particular not a bundle whose Navy entry is absent while
other formulas are present. -/
theorem female_no_hip_counterexample :
    results ⟨some Sex.female, some 30, some 70, some 165, some 34, some 75, none⟩ = none := by
  simp [results]

/-- C2 amended: for every record with sex female and hip null, the engine
returns no result bundle at all (the completeness guard rejects the record);
no partial bundle is ever produced for such a record. -/
theorem female_no_hip_no_bundle (fd : FormData)
    (hsex : fd.sex = some Sex.female) (hhip : fd.hipCm = none) :
    results fd = none := by
  simp [results, hsex, hhip]

/-- Witness for the amended C2 at a concrete female record without hip. -/
theorem female_no_hip_no_bundle_witness :
    results ⟨some Sex.female, some 25, some 60, some 160, some 32, some 70, none⟩ = none :=
  female_no_hip_no_bundle ⟨some Sex.female, some 25, some 60, some 160, some 32, some 70, none⟩
    rfl rfl

/-- C9: the weight and length conversion pairs are mutual inverses; in the
exact-arithmetic model the round trip is exact, hence in particular within
the 1e-6 relative tolerance. -/
theorem conversion_roundtrip (kg cm : ℝ) :
    |lbsToKg (kgToLbs kg) - kg| ≤ 1e-6 * |kg| ∧ |inToCm (cmToIn cm) - cm| ≤ 1e-6 * |cm| := by
  have h1 : lbsToKg (kgToLbs kg) = kg := by
    unfold lbsToKg kgToLbs
    field_simp
  have h2 : inToCm (cmToIn cm) = cm := by
    unfold inToCm cmToIn
    field_simp
  rw [h1, h2, sub_self, sub_self, abs_zero]
  constructor <;> positivity

/-- Witness for C9 at kg = 80 and cm = 180. -/
theorem conversion_roundtrip_witness :
    |lbsToKg (kgToLbs 80) - 80| ≤ 1e-6 * |(80 : ℝ)| ∧
      |inToCm (cmToIn 180) - 180| ≤ 1e-6 * |(180 : ℝ)| :=
  conversion_roundtrip 80 180

/-- C4: `validateRange` treats the empty string and a lone minus sign as
"no error"; otherwise it normalizes commas to periods, reports an
invalid-number error exactly when the normalized text does not parse, and
reports a range error carrying the bounds exactly when the parsed value lies
outside `[min, max]` (a parsed infinity of either sign always does); in
particular on `15,5`, the empty string, `14` and `Infinity` against the
bounds 15 and 100 it behaves as the program does. -/
theorem validateRange_spec (min max : ℚ) (s : String) :
    ((s = "" ∨ s = "-") → validateRange min max s = ValidationOutcome.ok)
    ∧ (¬(s = "" ∨ s = "-") →
        (validateRange min max s = ValidationOutcome.invalidNumber ↔
          parseFloatJS (normalizeCommas s) = none)
        ∧ (∀ q, parseFloatJS (normalizeCommas s) = some (JSNumber.finite q) →
            (validateRange min max s = ValidationOutcome.outOfRange min max ↔
              (q < min ∨ q > max)))
        ∧ (parseFloatJS (normalizeCommas s) = some JSNumber.posInf →
            validateRange min max s = ValidationOutcome.outOfRange min max)
        ∧ (parseFloatJS (normalizeCommas s) = some JSNumber.negInf →
            validateRange min max s = ValidationOutcome.outOfRange min max))
    ∧ validateRange 15 100 ("15,5") = ValidationOutcome.ok
    ∧ validateRange 15 100 ("") = ValidationOutcome.ok
    ∧ validateRange 15 100 ("14") = ValidationOutcome.outOfRange 15 100
    ∧ validateRange 15 100 ("Infinity") = ValidationOutcome.outOfRange 15 100 := by
  refine ⟨?_, ?_, ?_, ?_, ?_, ?_⟩
  · intro h
    unfold validateRange
    rw [if_pos h]
  · intro h
    unfold validateRange
    rw [if_neg h]
    refine ⟨?_, ?_, ?_, ?_⟩
    · cases hp : parseFloatJS (normalizeCommas s) with
      | none => simp
      | some v =>
          simp only
          constructor
          · intro hv
            by_cases hr : (jsLt v min || jsGt v max) = true
            · rw [if_pos hr] at hv
              cases hv
            · rw [if_neg hr] at hv
              cases hv
          · intro hv
            cases hv
    · intro q hq
      rw [hq]
      simp only
      constructor
      · intro h2
        by_cases hr : (jsLt (JSNumber.finite q) min || jsGt (JSNumber.finite q) max) = true
        · simpa [jsLt, jsGt] using hr
        · rw [if_neg hr] at h2
          cases h2
      · intro hr
        have hb : (jsLt (JSNumber.finite q) min || jsGt (JSNumber.finite q) max) = true := by
          simpa [jsLt, jsGt] using hr
        rw [if_pos hb]
    · intro hq
      rw [hq]
      simp only
      have hb : (jsLt JSNumber.posInf min || jsGt JSNumber.posInf max) = true := by
        simp [jsLt, jsGt]
      rw [if_pos hb]
    · intro hq
      rw [hq]
      simp only
      have hb : (jsLt JSNumber.negInf min || jsGt JSNumber.negInf max) = true := by
        simp [jsLt, jsGt]
      rw [if_pos hb]
  · simp [validateRange, normalizeCommas, parseFloatJS, parseFloatChars, digitsVal,
      isStrWhiteSpace, jsLt, jsGt, List.dropWhile, List.takeWhile]
    norm_num
  · simp [validateRange]
  · simp [validateRange, normalizeCommas, parseFloatJS, parseFloatChars, digitsVal,
      isStrWhiteSpace, jsLt, jsGt, List.dropWhile, List.takeWhile]
    norm_num
  · simp [validateRange, normalizeCommas, parseFloatJS, parseFloatChars, digitsVal,
      isStrWhiteSpace, jsLt, jsGt, List.dropWhile, List.takeWhile]

/-- Witness for C4: the empty-string clause applied at concrete bounds. -/
theorem validateRange_spec_witness :
    validateRange 20 70 ("") = ValidationOutcome.ok :=
  (validateRange_spec 20 70 ("")).1 (Or.inl rfl)

/-- Male banding characterization used by C8. -/
lemma getBfCategory_male_iff (bf : ℝ) :
    (getBfCategory (some bf) (some Sex.male) = BfCategory.contestPrep ↔ bf < 8)
    ∧ (getBfCategory (some bf) (some Sex.male) = BfCategory.athletic ↔ 8 ≤ bf ∧ bf ≤ 15)
    ∧ (getBfCategory (some bf) (some Sex.male) = BfCategory.average ↔ 15 < bf ∧ bf ≤ 21)
    ∧ (getBfCategory (some bf) (some Sex.male) = BfCategory.overweight ↔ 21 < bf ∧ bf ≤ 26)
    ∧ (getBfCategory (some bf) (some Sex.male) = BfCategory.obese ↔ 26 < bf) := by
  simp only [getBfCategory]
  split_ifs <;> try simp_all
  all_goals repeat' apply And.intro
  all_goals (first | linarith | (intro h2; linarith))

/-- Female banding characterization used by C8. -/
lemma getBfCategory_female_iff (bf : ℝ) :
    (getBfCategory (some bf) (some Sex.female) = BfCategory.contestPrep ↔ bf < 14)
    ∧ (getBfCategory (some bf) (some Sex.female) = BfCategory.athletic ↔ 14 ≤ bf ∧ bf ≤ 24)
    ∧ (getBfCategory (some bf) (some Sex.female) = BfCategory.average ↔ 24 < bf ∧ bf ≤ 33)
    ∧ (getBfCategory (some bf) (some Sex.female) = BfCategory.overweight ↔ 33 < bf ∧ bf ≤ 39)
    ∧ (getBfCategory (some bf) (some Sex.female) = BfCategory.obese ↔ 39 < bf) := by
  simp only [getBfCategory]
  split_ifs <;> try simp_all
  all_goals repeat' apply And.intro
  all_goals (first | linarith | (intro h2; linarith))

/-- Monotonicity of the banding in severity, used by C8. -/
lemma getBfCategory_mono (s : Sex) (bf1 bf2 : ℝ) (h : bf1 ≤ bf2) :
    severityRank (getBfCategory (some bf1) (some s)) ≤
      severityRank (getBfCategory (some bf2) (some s)) := by
  cases s <;> simp only [getBfCategory] <;> split_ifs <;> simp [severityRank] <;> linarith

/-- C8: `getBfCategory` implements exactly the fixed sex-specific banding
(male thresholds 8/15/21/26, female thresholds 14/24/33/39), returns Unknown
when the percentage or the sex is absent, and the banding is monotone
non-decreasing in severity as the percentage grows for a fixed sex. -/
theorem getBfCategory_spec (bf : ℝ) :
    (getBfCategory (some bf) (some Sex.male) = BfCategory.contestPrep ↔ bf < 8)
    ∧ (getBfCategory (some bf) (some Sex.male) = BfCategory.athletic ↔ 8 ≤ bf ∧ bf ≤ 15)
    ∧ (getBfCategory (some bf) (some Sex.male) = BfCategory.average ↔ 15 < bf ∧ bf ≤ 21)
    ∧ (getBfCategory (some bf) (some Sex.male) = BfCategory.overweight ↔ 21 < bf ∧ bf ≤ 26)
    ∧ (getBfCategory (some bf) (some Sex.male) = BfCategory.obese ↔ 26 < bf)
    ∧ (getBfCategory (some bf) (some Sex.female) = BfCategory.contestPrep ↔ bf < 14)
    ∧ (getBfCategory (some bf) (some Sex.female) = BfCategory.athletic ↔ 14 ≤ bf ∧ bf ≤ 24)
    ∧ (getBfCategory (some bf) (some Sex.female) = BfCategory.average ↔ 24 < bf ∧ bf ≤ 33)
    ∧ (getBfCategory (some bf) (some Sex.female) = BfCategory.overweight ↔ 33 < bf ∧ bf ≤ 39)
    ∧ (getBfCategory (some bf) (some Sex.female) = BfCategory.obese ↔ 39 < bf)
    ∧ (∀ s, getBfCategory none s = BfCategory.unknown)
    ∧ (∀ o, getBfCategory o none = BfCategory.unknown)
    ∧ (∀ s bf2, bf ≤ bf2 →
        severityRank (getBfCategory (some bf) (some s)) ≤
          severityRank (getBfCategory (some bf2) (some s))) := by
  obtain ⟨m1, m2, m3, m4, m5⟩ := getBfCategory_male_iff bf
  obtain ⟨f1, f2, f3, f4, f5⟩ := getBfCategory_female_iff bf
  refine ⟨m1, m2, m3, m4, m5, f1, f2, f3, f4, f5, ?_, ?_, ?_⟩
  · intro s
    cases s <;> rfl
  · intro o
    cases o <;> rfl
  · intro s bf2 h
    exact getBfCategory_mono s bf bf2 h

/-- Witness for C8: the average band at 20 percent for a male, and the
monotonicity clause applied from 10 to 25 percent. -/
theorem getBfCategory_spec_witness :
    getBfCategory (some (20 : ℝ)) (some Sex.male) = BfCategory.average ∧
      severityRank (getBfCategory (some (10 : ℝ)) (some Sex.male)) ≤
        severityRank (getBfCategory (some (25 : ℝ)) (some Sex.male)) :=
  ⟨((getBfCategory_spec (20 : ℝ)).2.2.1).mpr (by norm_num),
    (getBfCategory_spec (10 : ℝ)).2.2.2.2.2.2.2.2.2.2.2.2 Sex.male 25 (by norm_num)⟩

/-- Every non-null Deurenberg value is clamped nonnegative. -/
lemma deurenberg_nonneg (bmi age : Option ℝ) (sf x : ℝ)
    (h : deurenberg bmi age sf = some x) : 0 ≤ x := by
  simp only [deurenberg] at h
  repeat' split at h
  all_goals cases h
  all_goals exact le_max_left 0 _

/-- Every non-null Navy value is clamped nonnegative. -/
lemma navy_nonneg (isMale : Bool) (heightCm neckCm waistCm hipCm : Option ℝ) (x : ℝ)
    (h : navy isMale heightCm neckCm waistCm hipCm = some x) : 0 ≤ x := by
  simp only [navy] at h
  repeat' split at h
  all_goals cases h
  all_goals exact le_max_left 0 _

/-- Every non-null RFM value is clamped nonnegative. -/
lemma rfm_nonneg (isMale : Bool) (heightCm waistCm : Option ℝ) (x : ℝ)
    (h : rfm isMale heightCm waistCm = some x) : 0 ≤ x := by
  simp only [rfm] at h
  repeat' split at h
  all_goals cases h
  all_goals exact le_max_left 0 _

/-- Every non-null CUN-BAE value is clamped nonnegative. -/
lemma cunBae_nonneg (bmi age : Option ℝ) (sf x : ℝ)
    (h : cunBae bmi age sf = some x) : 0 ≤ x := by
  simp only [cunBae] at h
  repeat' split at h
  all_goals cases h
  all_goals exact le_max_left 0 _

/-- Every non-null ECORE value is clamped nonnegative. -/
lemma ecore_nonneg (bmi age : Option ℝ) (sf x : ℝ)
    (h : ecore bmi age sf = some x) : 0 ≤ x := by
  simp only [ecore] at h
  repeat' split at h
  all_goals cases h
  all_goals exact le_max_left 0 _

/-- Average of the non-null entries of a list of clamped options is
nonnegative when every non-null entry is. -/
lemma avg_nonneg (l : List (Option ℝ))
    (hl : ∀ o ∈ l, ∀ x, o = some x → 0 ≤ x) :
    0 ≤ (l.filterMap id).sum / ((l.filterMap id).length : ℝ) := by
  apply div_nonneg
  · apply List.sum_nonneg
    intro y hy
    obtain ⟨o, ho, hoy⟩ := List.mem_filterMap.mp hy
    exact hl o ho y hoy
  · exact Nat.cast_nonneg _

/-- C5: every estimate the engine reports is nonnegative — each formula clamps
at zero before being stored, and the average of the reported values is
therefore nonnegative as well. -/
theorem engine_estimates_nonneg (fd : FormData) (rb : ResultBundle)
    (h : results fd = some rb) :
    (∀ x, rb.BMI_BF = some x → 0 ≤ x) ∧ (∀ x, rb.NAVY = some x → 0 ≤ x)
    ∧ (∀ x, rb.RFM = some x → 0 ≤ x) ∧ (∀ x, rb.CUN_BAE = some x → 0 ≤ x)
    ∧ (∀ x, rb.ECORE = some x → 0 ≤ x) ∧ (∀ x, rb.AVERAGE_BF = some x → 0 ≤ x) := by
  obtain ⟨s, hs, hrb⟩ := results_eq_some_elim h
  subst hrb
  simp only [computeResults]
  refine ⟨?_, ?_, ?_, ?_, ?_, ?_⟩
  · intro x hx
    exact deurenberg_nonneg _ _ _ _ hx
  · intro x hx
    exact navy_nonneg _ _ _ _ _ _ hx
  · intro x hx
    exact rfm_nonneg _ _ _ _ hx
  · intro x hx
    exact cunBae_nonneg _ _ _ _ hx
  · intro x hx
    exact ecore_nonneg _ _ _ _ hx
  · intro x hx
    repeat' split at hx
    all_goals cases hx
    all_goals apply avg_nonneg
    all_goals intro o ho y hoy
    all_goals simp only [List.mem_cons, List.not_mem_nil, or_false] at ho
    all_goals
      rcases ho with rfl | rfl | rfl | rfl | rfl
    all_goals
      first
        | exact deurenberg_nonneg _ _ _ _ hoy
        | exact navy_nonneg _ _ _ _ _ _ hoy
        | exact rfm_nonneg _ _ _ _ hoy
        | exact cunBae_nonneg _ _ _ _ hoy
        | exact ecore_nonneg _ _ _ _ hoy

/-- C6: within a computed bundle the Navy entry is exactly the published
male/female tape formula (clamped at zero) when the positivity precondition
on the logarithm arguments holds, and is absent — not zero, not an error —
when it fails. -/
theorem navy_formula_spec (fd : FormData) (rb : ResultBundle)
    (h : results fd = some rb) (hgtV nkV wtV : ℝ)
    (hh : fd.heightCm = some hgtV) (hn : fd.neckCm = some nkV)
    (hw : fd.waistCm = some wtV) :
    (fd.sex = some Sex.male →
      ((wtV - nkV > 0 ∧ hgtV > 0 →
          rb.NAVY = some (max 0 (495 / (1.0324 - 0.19077 * Real.logb 10 (wtV - nkV)
            + 0.15456 * Real.logb 10 hgtV) - 450)))
        ∧ (¬(wtV - nkV > 0 ∧ hgtV > 0) → rb.NAVY = none)))
    ∧ (∀ hipV, fd.sex = some Sex.female → fd.hipCm = some hipV →
      ((wtV + hipV - nkV > 0 ∧ hgtV > 0 →
          rb.NAVY = some (max 0 (495 / (1.29579 - 0.35004 * Real.logb 10 (wtV + hipV - nkV)
            + 0.22100 * Real.logb 10 hgtV) - 450)))
        ∧ (¬(wtV + hipV - nkV > 0 ∧ hgtV > 0) → rb.NAVY = none))) := by
  obtain ⟨s, hs, hrb⟩ := results_eq_some_elim h
  subst hrb
  simp only [computeResults]
  constructor
  · intro hmale
    rw [hs] at hmale
    obtain rfl : s = Sex.male := Option.some_injective _ hmale
    have hbeq : (Sex.male == Sex.male) = true := rfl
    constructor
    · intro hc
      simp only [navy, hh, hn, hw, hbeq, eq_self_iff_true, if_true]
      rw [if_pos hc]
    · intro hc
      simp only [navy, hh, hn, hw, hbeq, eq_self_iff_true, if_true]
      rw [if_neg hc]
  · intro hipV hfemale hhip
    rw [hs] at hfemale
    obtain rfl : s = Sex.female := Option.some_injective _ hfemale
    have hbeq : (Sex.female == Sex.male) = false := rfl
    constructor
    · intro hc
      simp only [navy, hh, hn, hw, hhip, hbeq, Bool.false_eq_true, if_false]
      rw [if_pos hc]
    · intro hc
      simp only [navy, hh, hn, hw, hhip, hbeq, Bool.false_eq_true, if_false]
      rw [if_neg hc]

/-- C7: in every computed bundle, the average is the arithmetic mean of
exactly the non-null entries among the five body-fat estimates — the raw BMI
value is excluded — and is absent when none of the five is present. -/
theorem average_spec (fd : FormData) (rb : ResultBundle)
    (h : results fd = some rb) :
    (([rb.BMI_BF, rb.NAVY, rb.RFM, rb.CUN_BAE, rb.ECORE].filterMap id) = [] →
      rb.AVERAGE_BF = none)
    ∧ (([rb.BMI_BF, rb.NAVY, rb.RFM, rb.CUN_BAE, rb.ECORE].filterMap id) ≠ [] →
      rb.AVERAGE_BF = some
        ((([rb.BMI_BF, rb.NAVY, rb.RFM, rb.CUN_BAE, rb.ECORE].filterMap id).sum)
          / ((([rb.BMI_BF, rb.NAVY, rb.RFM, rb.CUN_BAE, rb.ECORE].filterMap id).length : ℝ)))) := by
  obtain ⟨s, hs, hrb⟩ := results_eq_some_elim h
  subst hrb
  simp only [computeResults]
  constructor
  · intro hnil
    rw [hnil]
    simp
  · intro hne
    have hlen : 0 < ([deurenberg (calculateBMI fd.weightKg fd.heightCm) fd.age
        (if (s == Sex.male) = true then 1 else 0),
      navy (s == Sex.male) fd.heightCm fd.neckCm fd.waistCm fd.hipCm,
      rfm (s == Sex.male) fd.heightCm fd.waistCm,
      cunBae (calculateBMI fd.weightKg fd.heightCm) fd.age
        (if (s == Sex.male) = true then 0 else 1),
      ecore (calculateBMI fd.weightKg fd.heightCm) fd.age
        (if (s == Sex.male) = true then 0 else 1)].filterMap id).length :=
      List.length_pos.mpr hne
    rw [if_pos hlen]

/-- Taylor bound for the natural log of 3/4. -/
lemma log34_bounds : -(0.28769 : ℝ) < Real.log (3/4) ∧ Real.log (3/4) < -(0.28767 : ℝ) := by
  have hnn : (0 : ℝ) ≤ 1/4 := by norm_num
  have habs : |(1/4 : ℝ)| < 1 := by
    rw [abs_of_nonneg hnn]
    norm_num
  have h := Real.abs_log_sub_add_sum_range_le habs 8
  rw [abs_le, abs_of_nonneg hnn] at h
  norm_num [Finset.sum_range_succ] at h
  constructor <;> linarith [h.1, h.2]

/-- Taylor bound for the natural log of 4/5. -/
lemma log45_bounds : -(0.223145 : ℝ) < Real.log (4/5) ∧ Real.log (4/5) < -(0.223142 : ℝ) := by
  have hnn : (0 : ℝ) ≤ 1/5 := by norm_num
  have habs : |(1/5 : ℝ)| < 1 := by
    rw [abs_of_nonneg hnn]
    norm_num
  have h := Real.abs_log_sub_add_sum_range_le habs 8
  rw [abs_le, abs_of_nonneg hnn] at h
  norm_num [Finset.sum_range_succ] at h
  constructor <;> linarith [h.1, h.2]

/-- Taylor bound for the natural log of 47/48. -/
lemma log4748_bounds :
    -(0.0210536 : ℝ) < Real.log (47/48) ∧ Real.log (47/48) < -(0.0210531 : ℝ) := by
  have hnn : (0 : ℝ) ≤ 1/48 := by norm_num
  have habs : |(1/48 : ℝ)| < 1 := by
    rw [abs_of_nonneg hnn]
    norm_num
  have h := Real.abs_log_sub_add_sum_range_le habs 3
  rw [abs_le, abs_of_nonneg hnn] at h
  norm_num [Finset.sum_range_succ] at h
  constructor <;> linarith [h.1, h.2]

/-- Factorization of log 47 over log 2, log (3/4) and log (47/48). -/
lemma log47_eq : Real.log 47 = 6 * Real.log 2 + Real.log (3/4) + Real.log (47/48) := by
  have h : (47 : ℝ) = 2 ^ (6 : ℕ) * (3/4) * (47/48) := by norm_num
  conv_lhs => rw [h]
  rw [Real.log_mul (by norm_num) (by norm_num), Real.log_mul (by norm_num) (by norm_num),
    Real.log_pow]
  push_cast
  ring

/-- Factorization of log 10 over log 2 and log (4/5). -/
lemma log10_eq : Real.log 10 = 3 * Real.log 2 - Real.log (4/5) := by
  have h : (10 : ℝ) = 2 ^ (3 : ℕ) * (4/5)⁻¹ := by norm_num
  conv_lhs => rw [h]
  rw [Real.log_mul (by norm_num) (by norm_num), Real.log_pow, Real.log_inv]
  push_cast
  ring

/-- Factorization of log 180 over log 2, log (3/4) and log (4/5). -/
lemma log180_eq :
    Real.log 180 = 8 * Real.log 2 + 2 * Real.log (3/4) - Real.log (4/5) := by
  have h : (180 : ℝ) = 2 ^ (8 : ℕ) * (3/4) ^ (2 : ℕ) * (4/5)⁻¹ := by norm_num
  conv_lhs => rw [h]
  rw [Real.log_mul (by norm_num) (by norm_num), Real.log_mul (by norm_num) (by norm_num),
    Real.log_pow, Real.log_pow, Real.log_inv]
  push_cast
  ring

/-- Factorization of log (2000/81) over log 2, log (3/4) and log (4/5). -/
lemma logBmiMale_eq :
    Real.log (2000/81) = 2 * Real.log 2 - 4 * Real.log (3/4) - 3 * Real.log (4/5) := by
  have h : (2000/81 : ℝ) = 2 ^ (2 : ℕ) * ((3/4) ^ (4 : ℕ))⁻¹ * ((4/5) ^ (3 : ℕ))⁻¹ := by
    norm_num
  conv_lhs => rw [h]
  rw [Real.log_mul (by norm_num) (by norm_num), Real.log_mul (by norm_num) (by norm_num),
    Real.log_pow, Real.log_inv, Real.log_inv, Real.log_pow, Real.log_pow]
  push_cast
  ring

/-- Rational bounds for log 47. -/
lemma log47_bounds : (3.850138 : ℝ) < Real.log 47 ∧ Real.log 47 < 3.850162 := by
  rw [log47_eq]
  have h2l := Real.log_two_gt_d9
  have h2u := Real.log_two_lt_d9
  obtain ⟨h34l, h34u⟩ := log34_bounds
  obtain ⟨h48l, h48u⟩ := log4748_bounds
  constructor <;> linarith

/-- Rational bounds for log 10. -/
lemma log10_bounds : (2.302583 : ℝ) < Real.log 10 ∧ Real.log 10 < 2.302587 := by
  rw [log10_eq]
  have h2l := Real.log_two_gt_d9
  have h2u := Real.log_two_lt_d9
  obtain ⟨h45l, h45u⟩ := log45_bounds
  constructor <;> linarith

/-- Rational bounds for log 180. -/
lemma log180_bounds : (5.192938 : ℝ) < Real.log 180 ∧ Real.log 180 < 5.192984 := by
  rw [log180_eq]
  have h2l := Real.log_two_gt_d9
  have h2u := Real.log_two_lt_d9
  obtain ⟨h34l, h34u⟩ := log34_bounds
  obtain ⟨h45l, h45u⟩ := log45_bounds
  constructor <;> linarith

/-- Rational bounds for log (2000/81), the BMI of the reference male record. -/
lemma logBmiMale_bounds :
    (3.206399 : ℝ) < Real.log (2000/81) ∧ Real.log (2000/81) < 3.206491 := by
  rw [logBmiMale_eq]
  have h2l := Real.log_two_gt_d9
  have h2u := Real.log_two_lt_d9
  obtain ⟨h34l, h34u⟩ := log34_bounds
  obtain ⟨h45l, h45u⟩ := log45_bounds
  constructor <;> linarith

/-- Rational bounds for the base-10 log of 47. -/
lemma logb10_47_bounds : (1.672092 : ℝ) < Real.logb 10 47 ∧ Real.logb 10 47 < 1.672107 := by
  obtain ⟨hal, hau⟩ := log47_bounds
  obtain ⟨hbl, hbu⟩ := log10_bounds
  have hbpos : (0 : ℝ) < Real.log 10 := by linarith
  unfold Real.logb
  constructor
  · rw [lt_div_iff hbpos]
    nlinarith
  · rw [div_lt_iff hbpos]
    nlinarith

/-- Rational bounds for the base-10 log of 180. -/
lemma logb10_180_bounds :
    (2.255260 : ℝ) < Real.logb 10 180 ∧ Real.logb 10 180 < 2.255290 := by
  obtain ⟨hal, hau⟩ := log180_bounds
  obtain ⟨hbl, hbu⟩ := log10_bounds
  have hbpos : (0 : ℝ) < Real.log 10 := by linarith
  unfold Real.logb
  constructor
  · rw [lt_div_iff hbpos]
    nlinarith
  · rw [div_lt_iff hbpos]
    nlinarith

/-- The Navy value of the reference male record (waist 85, neck 38,
height 180), as produced by the engine. -/
noncomputable def navyMaleVal : ℝ :=
  495 / (1.0324 - 0.19077 * Real.logb 10 47 + 0.15456 * Real.logb 10 180) - 450

/-- The ECORE value of the reference male record (age 30, BMI 2000/81), as
produced by the engine (the 11.900 sex term vanishes for males). -/
noncomputable def ecoreMaleVal : ℝ := 35.959 * Real.log (2000/81) - 93.412

/-- The Navy estimate of the reference male record lies strictly between
16 and 16.2 — in particular it is positive, so the clamp is inactive. -/
lemma navyMaleVal_bounds : (16 : ℝ) < navyMaleVal ∧ navyMaleVal < 16.2 := by
  obtain ⟨h47l, h47u⟩ := logb10_47_bounds
  obtain ⟨h180l, h180u⟩ := logb10_180_bounds
  unfold navyMaleVal
  have hdl : (1.061985 : ℝ) < 1.0324 - 0.19077 * Real.logb 10 47
      + 0.15456 * Real.logb 10 180 := by linarith
  have hdu : 1.0324 - 0.19077 * Real.logb 10 47 + 0.15456 * Real.logb 10 180
      < (1.061994 : ℝ) := by linarith
  have hdpos : (0 : ℝ) < 1.0324 - 0.19077 * Real.logb 10 47
      + 0.15456 * Real.logb 10 180 := by linarith
  constructor
  · have : (466 : ℝ) < 495 / (1.0324 - 0.19077 * Real.logb 10 47
        + 0.15456 * Real.logb 10 180) := by
      rw [lt_div_iff hdpos]
      nlinarith
    linarith
  · have : 495 / (1.0324 - 0.19077 * Real.logb 10 47
        + 0.15456 * Real.logb 10 180) < (466.2 : ℝ) := by
      rw [div_lt_iff hdpos]
      nlinarith
    linarith

/-- The ECORE estimate of the reference male record lies strictly between
21.8 and 22 — in particular it is positive, so the clamp is inactive. -/
lemma ecoreMaleVal_bounds : (21.8 : ℝ) < ecoreMaleVal ∧ ecoreMaleVal < 22 := by
  obtain ⟨hl, hu⟩ := logBmiMale_bounds
  unfold ecoreMaleVal
  constructor <;> nlinarith

/-- The reference male record of the specification:
sex male, age 30, weight 80 kg, height 180 cm, neck 38 cm, waist 85 cm. -/
def maleRec : FormData :=
  ⟨some Sex.male, some 30, some 80, some 180, some 38, some 85, none⟩

/-- The bundle the engine computes for `maleRec`, with every rational entry
in lowest terms. -/
noncomputable def maleBundle : ResultBundle :=
  ⟨some (2000/81), some (5489/270), some (max 0 navyMaleVal), some (368/17),
    some (70851611/3280500), some (max 0 ecoreMaleVal),
    some ((5489/270 + max 0 navyMaleVal + 368/17 + 70851611/3280500
      + max 0 ecoreMaleVal) / 5)⟩

/-- BMI of the reference male record. -/
lemma calculateBMI_maleRec :
    calculateBMI (some (80 : ℝ)) (some 180) = some (2000/81) := by
  simp only [calculateBMI]
  rw [if_neg (by norm_num)]
  norm_num

/-- Deurenberg estimate of the reference male record. -/
lemma deurenberg_maleRec :
    deurenberg (some ((2000 : ℝ)/81)) (some 30) 1 = some (5489/270) := by
  simp only [deurenberg]
  rw [max_eq_right (by norm_num)]
  norm_num

/-- Navy estimate of the reference male record. -/
lemma navy_maleRec :
    navy true (some (180 : ℝ)) (some 38) (some 85) none = some (max 0 navyMaleVal) := by
  simp only [navy, eq_self_iff_true, if_true]
  rw [if_pos (by norm_num)]
  unfold navyMaleVal
  norm_num

/-- RFM estimate of the reference male record. -/
lemma rfm_maleRec : rfm true (some (180 : ℝ)) (some 85) = some (368/17) := by
  simp only [rfm, eq_self_iff_true, if_true]
  rw [if_pos (by norm_num), max_eq_right (by norm_num)]
  norm_num

/-- CUN-BAE estimate of the reference male record. -/
lemma cunBae_maleRec :
    cunBae (some ((2000 : ℝ)/81)) (some 30) 0 = some (70851611/3280500) := by
  simp only [cunBae]
  rw [max_eq_right (by norm_num)]
  norm_num

/-- ECORE estimate of the reference male record. -/
lemma ecore_maleRec :
    ecore (some ((2000 : ℝ)/81)) (some 30) 0 = some (max 0 ecoreMaleVal) := by
  simp only [ecore]
  rw [if_pos (by norm_num)]
  unfold ecoreMaleVal
  norm_num
  ring_nf

/-- Full evaluation of the engine on the reference male record. -/
lemma results_maleRec : results maleRec = some maleBundle := by
  have hstep : results maleRec = some (computeResults Sex.male (some 30) (some 80)
      (some 180) (some 38) (some 85) none) := by
    simp [results, maleRec]
  rw [hstep]
  simp only [computeResults, show (Sex.male == Sex.male) = true from rfl,
    eq_self_iff_true, if_true]
  rw [calculateBMI_maleRec, deurenberg_maleRec, navy_maleRec, rfm_maleRec,
    cunBae_maleRec, ecore_maleRec]
  simp only [maleBundle, List.filterMap_cons, List.filterMap_nil, id, Option.some.injEq]
  norm_num [List.sum_cons, List.sum_nil]
  ring_nf

/-- C10 counterexample: on the reference male record the engine's
Deurenberg estimate is 5489/270 ≈ 20.33 — more than 5 points away from the
claimed 14.52 —, its RFM estimate is 368/17 ≈ 21.65 — more than 30 points away
from the claimed 54.56 —, and its Navy estimate is strictly below 17, outside
the claimed 17.0–18.0 range. -/
theorem male_example_counterexample :
    (results maleRec).map ResultBundle.BMI_BF = some (some ((5489 : ℝ)/270))
    ∧ (results maleRec).map ResultBundle.RFM = some (some ((368 : ℝ)/17))
    ∧ (5 : ℝ) < |(5489 : ℝ)/270 - 14.52|
    ∧ (30 : ℝ) < |(368 : ℝ)/17 - 54.56|
    ∧ (results maleRec).map ResultBundle.NAVY = some (some (max 0 navyMaleVal))
    ∧ max 0 navyMaleVal < 17 := by
  refine ⟨?_, ?_, ?_, ?_, ?_, ?_⟩
  · rw [results_maleRec]
    rfl
  · rw [results_maleRec]
    rfl
  · rw [abs_of_pos (by norm_num)]
    norm_num
  · rw [abs_of_neg (by norm_num)]
    norm_num
  · rw [results_maleRec]
    rfl
  · obtain ⟨hl, hu⟩ := navyMaleVal_bounds
    rw [max_eq_right (by linarith)]
    linarith

/-- C10 amended: on the reference male record the engine produces
BMI = 2000/81 ≈ 24.69, Deurenberg ≈ 20.33, Navy strictly between 16 and 16.2,
RFM = 368/17 ≈ 21.65, CUN-BAE ≈ 21.60, ECORE strictly between 21.8 and 22;
all five estimates are present, the average is their arithmetic mean, lies in
(20, 21], and its male banding category is Average. -/
theorem male_example_amended :
    results maleRec = some maleBundle
    ∧ |(2000 : ℝ)/81 - 24.69| < 0.01
    ∧ |(5489 : ℝ)/270 - 20.33| < 0.01
    ∧ ((16 : ℝ) < navyMaleVal ∧ navyMaleVal < 16.2)
    ∧ |(368 : ℝ)/17 - 21.65| < 0.01
    ∧ |(70851611 : ℝ)/3280500 - 21.6| < 0.01
    ∧ ((21.8 : ℝ) < ecoreMaleVal ∧ ecoreMaleVal < 22)
    ∧ maleBundle.AVERAGE_BF = some ((5489/270 + navyMaleVal + 368/17
        + 70851611/3280500 + ecoreMaleVal) / 5)
    ∧ (20 : ℝ) < (5489/270 + navyMaleVal + 368/17 + 70851611/3280500 + ecoreMaleVal) / 5
    ∧ (5489/270 + navyMaleVal + 368/17 + 70851611/3280500 + ecoreMaleVal) / 5 ≤ 21
    ∧ getBfCategory (some ((5489/270 + navyMaleVal + 368/17 + 70851611/3280500
        + ecoreMaleVal) / 5)) (some Sex.male) = BfCategory.average := by
  obtain ⟨hnl, hnu⟩ := navyMaleVal_bounds
  obtain ⟨hel, heu⟩ := ecoreMaleVal_bounds
  have hmaxn : max 0 navyMaleVal = navyMaleVal := max_eq_right (by linarith)
  have hmaxe : max 0 ecoreMaleVal = ecoreMaleVal := max_eq_right (by linarith)
  have havgl : (20 : ℝ) < (5489/270 + navyMaleVal + 368/17 + 70851611/3280500
      + ecoreMaleVal) / 5 := by
    rw [lt_div_iff₀ (by norm_num : (0:ℝ) < 5)]
    nlinarith
  have havgu : (5489/270 + navyMaleVal + 368/17 + 70851611/3280500
      + ecoreMaleVal) / 5 ≤ (21 : ℝ) := by
    rw [div_le_iff₀ (by norm_num : (0:ℝ) < 5)]
    nlinarith
  refine ⟨results_maleRec, by rw [abs_of_pos (by norm_num)]; norm_num,
    by rw [abs_of_neg (by norm_num)]; norm_num, ⟨hnl, hnu⟩,
    by rw [abs_of_neg (by norm_num)]; norm_num,
    by rw [abs_of_neg (by norm_num)]; norm_num, ⟨hel, heu⟩, ?_, havgl, havgu, ?_⟩
  · simp only [maleBundle, hmaxn, hmaxe]
  · exact ((getBfCategory_male_iff _).2.2.1).mpr ⟨by linarith, havgu⟩

/-- BMI is absent whenever the height entry is non-positive. -/
lemma calculateBMI_none_of_nonpos (w : Option ℝ) (hv : ℝ) (hle : hv ≤ 0) :
    calculateBMI w (some hv) = none := by
  cases w with
  | none => rfl
  | some x =>
      simp only [calculateBMI]
      rw [if_pos hle]

/-- The Navy estimate is absent whenever the height entry is non-positive. -/
lemma navy_none_of_height_nonpos (isMale : Bool) (n w hip : Option ℝ) (hv : ℝ)
    (hle : hv ≤ 0) : navy isMale (some hv) n w hip = none := by
  have hng : ¬ hv > 0 := not_lt.mpr hle
  rcases n with _ | nv
  · rfl
  rcases w with _ | wv
  · rfl
  rcases hip with _ | hipv
  · cases isMale <;> simp [navy, hng]
  · cases isMale <;> simp [navy, hng]

/-- The RFM estimate is absent whenever the height entry is non-positive. -/
lemma rfm_none_of_height_nonpos (isMale : Bool) (w : Option ℝ) (hv : ℝ)
    (hle : hv ≤ 0) : rfm isMale (some hv) w = none := by
  have hng : ¬ hv > 0 := not_lt.mpr hle
  rcases w with _ | wv
  · rfl
  · simp [rfm, hng]

/-- C3 amended: the engine is a total function that degrades each estimate to
absent when its guarded precondition fails: a non-positive height blanks the
whole bundle, a non-positive log argument blanks the Navy entry, a
non-positive waist blanks RFM, and a non-positive weight blanks ECORE.
(The one unguarded spot — the Navy formula's final denominator reaching
exactly zero — is excluded; see the counterexample.) -/
theorem engine_degrades_to_absent (fd : FormData) (rb : ResultBundle)
    (h : results fd = some rb) (hgtV nkV wtV : ℝ)
    (hh : fd.heightCm = some hgtV) (hn : fd.neckCm = some nkV)
    (hw : fd.waistCm = some wtV) :
    (hgtV ≤ 0 → rb = ⟨none, none, none, none, none, none, none⟩)
    ∧ (fd.sex = some Sex.male → wtV - nkV ≤ 0 → rb.NAVY = none)
    ∧ (∀ hipV, fd.sex = some Sex.female → fd.hipCm = some hipV →
        wtV + hipV - nkV ≤ 0 → rb.NAVY = none)
    ∧ (wtV ≤ 0 → rb.RFM = none)
    ∧ (∀ wV, fd.weightKg = some wV → wV ≤ 0 → rb.ECORE = none) := by
  obtain ⟨s, hs, hrb⟩ := results_eq_some_elim h
  subst hrb
  refine ⟨?_, ?_, ?_, ?_, ?_⟩
  · intro hle
    simp only [computeResults, hh, hn, hw]
    rw [calculateBMI_none_of_nonpos _ _ hle, navy_none_of_height_nonpos _ _ _ _ _ hle,
      rfm_none_of_height_nonpos _ _ _ hle]
    simp [deurenberg, cunBae, ecore]
  · intro hmale hle
    rw [hs] at hmale
    obtain rfl : s = Sex.male := Option.some_injective _ hmale
    simp only [computeResults, hh, hn, hw, navy,
      show (Sex.male == Sex.male) = true from rfl, eq_self_iff_true, if_true]
    rw [if_neg (by intro hc; exact absurd hc.1 (not_lt.mpr hle))]
  · intro hipV hfem hhip hle
    rw [hs] at hfem
    obtain rfl : s = Sex.female := Option.some_injective _ hfem
    simp only [computeResults, hh, hn, hw, hhip, navy,
      show (Sex.female == Sex.male) = false from rfl, Bool.false_eq_true, if_false]
    rw [if_neg (by intro hc; exact absurd hc.1 (not_lt.mpr hle))]
  · intro hle
    simp only [computeResults, hh, hw, rfm]
    rw [if_neg (by intro hc; exact absurd hc.2 (not_lt.mpr hle))]
  · intro wV hwk hle
    simp only [computeResults, hh, hwk]
    by_cases hg : hgtV ≤ 0
    · rw [calculateBMI_none_of_nonpos _ _ hg]
      rfl
    · push_neg at hg
      have hb : calculateBMI (some wV) (some hgtV) =
          some (wV / ((hgtV / 100) * (hgtV / 100))) := by
        simp only [calculateBMI]
        rw [if_neg (not_le.mpr hg)]
      rw [hb]
      have hbn : ¬ wV / ((hgtV / 100) * (hgtV / 100)) > 0 := by
        rw [not_lt]
        apply div_nonpos_of_nonpos_of_nonneg hle
        positivity
      rcases hage : fd.age with _ | aV
      · simp only [ecore]
      · simp only [ecore]
        rw [if_neg hbn]

/-- The waist value that makes the male Navy denominator exactly zero at
height 1 and neck 0. -/
noncomputable def zeroDenomWaist : ℝ := (10 : ℝ) ^ ((1.0324 : ℝ) / 0.19077)

/-- A complete male record on which the Navy denominator is exactly zero. -/
noncomputable def zeroDenomRec : FormData :=
  ⟨some Sex.male, some 30, some 80, some 1, some 0, some zeroDenomWaist, none⟩

/-- The base-10 log of `zeroDenomWaist`. -/
lemma logb_zeroDenomWaist : Real.logb 10 zeroDenomWaist = (1.0324 : ℝ) / 0.19077 := by
  unfold zeroDenomWaist Real.logb
  rw [Real.log_rpow (by norm_num)]
  rw [mul_div_assoc, div_self (ne_of_gt (Real.log_pos (by norm_num))), mul_one]

/-- C3 counterexample: on `zeroDenomRec` the Navy formula's denominator is
exactly zero — a division whose divisor is not positive — yet the engine does
not degrade the Navy estimate to absent: it reports the (clamped, totalized)
value 0.  (Over JavaScript numbers this same input makes `495 / 0` an
Infinity, which flows into the reported bundle.) -/
theorem navy_zero_denominator_counterexample :
    (1.0324 - 0.19077 * Real.logb 10 (zeroDenomWaist - 0)
      + 0.15456 * Real.logb 10 1) = 0
    ∧ (results zeroDenomRec).map ResultBundle.NAVY = some (some 0) := by
  have hzero : (1.0324 - 0.19077 * Real.logb 10 (zeroDenomWaist - 0)
      + 0.15456 * Real.logb 10 1) = 0 := by
    rw [sub_zero, logb_zeroDenomWaist, Real.logb_one]
    norm_num
  refine ⟨hzero, ?_⟩
  have hstep : results zeroDenomRec = some (computeResults Sex.male (some 30) (some 80)
      (some 1) (some 0) (some zeroDenomWaist) none) := by
    simp [results, zeroDenomRec]
  rw [hstep, Option.map_some']
  congr 1
  simp only [computeResults, show (Sex.male == Sex.male) = true from rfl,
    eq_self_iff_true, if_true, navy]
  have hpos : zeroDenomWaist - 0 > 0 ∧ (1 : ℝ) > 0 := by
    constructor
    · rw [sub_zero]
      exact Real.rpow_pos_of_pos (by norm_num) _
    · norm_num
  rw [if_pos hpos, hzero]
  norm_num

/-- A complete male record with non-positive height, used to exercise the
degradation clauses of the amended C3. -/
noncomputable def negHeightRec : FormData :=
  ⟨some Sex.male, some 30, some 80, some (-1), some 38, some 85, none⟩

/-- On `negHeightRec` the engine produces the all-absent bundle. -/
lemma results_negHeightRec :
    results negHeightRec = some ⟨none, none, none, none, none, none, none⟩ := by
  have hstep : results negHeightRec = some (computeResults Sex.male (some 30) (some 80)
      (some (-1)) (some 38) (some 85) none) := by
    simp [results, negHeightRec]
  rw [hstep]
  congr 1
  simp only [computeResults]
  rw [calculateBMI_none_of_nonpos _ _ (by norm_num : (-1 : ℝ) ≤ 0),
    navy_none_of_height_nonpos _ _ _ _ _ (by norm_num : (-1 : ℝ) ≤ 0),
    rfm_none_of_height_nonpos _ _ _ (by norm_num : (-1 : ℝ) ≤ 0)]
  simp [deurenberg, cunBae, ecore]

/-- Witness for the amended C3: at `negHeightRec` the height is non-positive
and the engine indeed returns the all-absent bundle. -/
theorem engine_degrades_to_absent_witness :
    ((-1 : ℝ) ≤ 0) ∧
      (⟨none, none, none, none, none, none, none⟩ : ResultBundle) =
        ⟨none, none, none, none, none, none, none⟩ :=
  ⟨by norm_num,
    (engine_degrades_to_absent negHeightRec ⟨none, none, none, none, none, none, none⟩
      results_negHeightRec (-1) 38 85 rfl rfl rfl).1 (by norm_num)⟩

/-- Witness for C5: the average reported for the reference male record is
nonnegative, by the clamping invariant. -/
theorem engine_estimates_nonneg_witness :
    (0 : ℝ) ≤ (5489/270 + max 0 navyMaleVal + 368/17 + 70851611/3280500
      + max 0 ecoreMaleVal) / 5 :=
  (engine_estimates_nonneg maleRec maleBundle results_maleRec).2.2.2.2.2 _ rfl

/-- Witness for C6: the Navy entry of the reference male record equals the
clamped male tape formula at waist 85, neck 38, height 180. -/
theorem navy_formula_spec_witness :
    (results maleRec).map ResultBundle.NAVY = some (some (max 0 (495 / (1.0324
      - 0.19077 * Real.logb 10 ((85 : ℝ) - 38) + 0.15456 * Real.logb 10 180) - 450))) := by
  have h := ((navy_formula_spec maleRec maleBundle results_maleRec
    180 38 85 rfl rfl rfl).1 rfl).1 (by norm_num)
  rw [results_maleRec, Option.map_some']
  exact congrArg some h

/-- Witness for C7: the average entry of the reference male record is the
mean of its five present estimates. -/
theorem average_spec_witness :
    maleBundle.AVERAGE_BF = some ((([maleBundle.BMI_BF, maleBundle.NAVY,
      maleBundle.RFM, maleBundle.CUN_BAE, maleBundle.ECORE].filterMap id).sum)
      / (([maleBundle.BMI_BF, maleBundle.NAVY, maleBundle.RFM, maleBundle.CUN_BAE,
        maleBundle.ECORE].filterMap id).length : ℝ)) :=
  (average_spec maleRec maleBundle results_maleRec).2 (by simp [maleBundle])
